import Mathlib

/-!
Shallow embedding of the authentication core of the `cloud_projeto_1` backend
(files `app/app.py`, `app/auth.py`, `app/main.py`, `app/schemas.py`).

Time is modelled as seconds since the epoch (`datetime.utcnow` becomes a `Nat`
argument threaded explicitly).  Module-level configuration constants that are
read from the environment (`JWT_SECRET_KEY`, `ACCESS_TOKEN_EXPIRE_MINUTES`)
are modelled as explicit parameters or as their in-code defaults.  The two
external cryptographic libraries (`bcrypt` / passlib and `python-jose`) are
modelled at the level of their observable contracts, as documented on each
definition.
-/

namespace Cloud

deriving instance DecidableEq for Except

/-- Seconds since the epoch; `datetime.utcnow()` values. -/
abbrev Time := Nat

/-- Split a character list at every occurrence of `sep` (the char-level
semantics of Python's `str.split(sep)` for a single-character separator). -/
def splitOnChar (sep : Char) : List Char → List (List Char)
  | [] => [[]]
  | c :: cs =>
    match splitOnChar sep cs with
    | [] => if c == sep then [[], []] else [[c]]
    | g :: gs => if c == sep then [] :: g :: gs else (c :: g) :: gs

/-- ASCII lowercase of one character (`str.lower()` restricted to ASCII,
which is all this code compares against). -/
def lowerChar (c : Char) : Char :=
  if 'A' ≤ c ∧ c ≤ 'Z' then Char.ofNat (c.toNat + 32) else c

/-- ASCII `str.lower()`. -/
def lowerStr (s : String) : String :=
  ⟨s.data.map lowerChar⟩

/-- Decimal value of a digit list, most significant first. -/
def digitsToNat (l : List Char) : Nat :=
  l.foldl (fun acc c => acc * 10 + (c.toNat - 48)) 0

/-- Python's `int(s)` on a string: an optional sign followed by a non-empty
run of decimal digits parses; anything else raises `ValueError`, modelled as
`none`. -/
def py_int (s : String) : Option Int :=
  let parseDigits : List Char → Option Nat := fun l =>
    if l ≠ [] ∧ l.all Char.isDigit then some (digitsToNat l) else none
  match s.data with
  | '-' :: rest => (parseDigits rest).map (fun n => -(n : Int))
  | '+' :: rest => (parseDigits rest).map (fun n => (n : Int))
  | l => (parseDigits l).map (fun n => (n : Int))

/-- Default of `ACCESS_TOKEN_EXPIRE_MINUTES = int(os.getenv("ACCESS_TOKEN_EXPIRE_MINUTES", "30"))`
(app/app.py line 61, app/auth.py line 16). -/
def ACCESS_TOKEN_EXPIRE_MINUTES : Nat := 30

/-- Constant `ALGORITHM = "HS256"` (app/app.py line 60; default in app/auth.py line 15
and app/config.py line 7). -/
def ALGORITHM : String := "HS256"

/-- Default bcrypt work factor used by `bcrypt.gensalt()`. -/
def BCRYPT_DEFAULT_COST : Nat := 12

/-- Model of the Python string stored in `hashed_password`, partitioned the
way the bcrypt library's parser partitions strings: either a well-formed
bcrypt hash encoding (cost, salt, digest) or a malformed string. -/
inductive HashRecord where
  | valid (cost : Nat) (salt : String) (digest : String)
  | malformed (raw : String)
deriving DecidableEq, Repr

/-- Model of a Python exception escaping, or being raised as, an error from a
handler: `http s d` is `HTTPException(status_code = s, detail = d)`, and
`uncaught` is an exception (such as `ValueError`) that no handler catches. -/
inductive ApiError where
  | http (statusCode : Nat) (detail : String)
  | uncaught
deriving DecidableEq, Repr

/-- Function `hash_password` (app/auth.py lines 22-23):
`bcrypt.hashpw(password.encode(), bcrypt.gensalt()).decode()`.
The bcrypt digest primitive is the parameter `bc : cost → salt → password →
digest`; the fresh random salt drawn by `bcrypt.gensalt()` is the explicit
`salt` argument.  (app/app.py lines 94-95 is the same operation through
passlib's bcrypt scheme.) -/
def hash_password (bc : Nat → String → String → String) (salt : String)
    (password : String) : HashRecord :=
  .valid BCRYPT_DEFAULT_COST salt (bc BCRYPT_DEFAULT_COST salt password)

/-- Function `verify_password` (app/auth.py lines 26-27):
`bcrypt.checkpw(password.encode(), hashed.encode())`.  The bcrypt library
raises `ValueError("Invalid salt")` when `hashed` is not a well-formed bcrypt
hash encoding, and otherwise recomputes the digest with the cost and salt
embedded in `hashed` and compares.  (app/app.py lines 97-98, passlib's
`pwd_ctx.verify`, likewise raises `UnknownHashError` on a malformed record.) -/
def verify_password (bc : Nat → String → String → String) (password : String)
    (hashed : HashRecord) : Except ApiError Bool :=
  match hashed with
  | .valid cost salt digest => .ok (bc cost salt password == digest)
  | .malformed _ => .error .uncaught

/-- JWT claim set as built by this repository: `sub`, `name`, `iat`, `exp`. -/
structure JwtPayload where
  sub : Option String
  name : Option String
  iat : Option Time
  exp : Option Time
deriving DecidableEq, Repr

/-- Model of the Python string holding a token, partitioned the way
python-jose's verifier partitions strings: a well-signed compact JWT (its
payload, the key it was signed with, and the algorithm of its header), or a
string that is not a validly signed token (garbage, tampered, or signed with
a different key — all indistinguishable to the verifier). -/
inductive TokenStr where
  | signed (payload : JwtPayload) (key : String) (alg : String)
  | garbage (raw : String)
deriving DecidableEq, Repr

/-- Model of `jwt.encode(payload, key, algorithm = alg)` from python-jose. -/
def jwt_encode (payload : JwtPayload) (key : String) (alg : String) : TokenStr :=
  .signed payload key alg

/-- Model of `jwt.decode(token, key, algorithms = algs)` from python-jose: verifies the
signature against `key` with the header algorithm pinned to the `algs` list,
then (default options, leeway 0) raises `ExpiredSignatureError` when the `exp`
claim is `< now`.  `none` models the raised `JWTError`. -/
def jwt_decode (token : TokenStr) (key : String) (algs : List String)
    (now : Time) : Option JwtPayload :=
  match token with
  | .garbage _ => none
  | .signed p k a =>
    if k == key && algs.contains a then
      match p.exp with
      | some e => if e < now then none else some p
      | none => some p
    else none

/-- SQLAlchemy model `User` (app/app.py lines 48-54) as a typed record. -/
structure User where
  id : Nat
  name : String
  email : String
  hashed_password : HashRecord
  created_at : Time
deriving DecidableEq, Repr

/-- The users table as an ordered store of rows. -/
abbrev Db := List User

/-- One column declaration of the SQLAlchemy `User` model: its name, type and
the `primary_key` / `unique` / `index` flags. -/
structure ColumnSpec where
  colName : String
  colType : String
  primary_key : Bool
  unique : Bool
  hasIndex : Bool
deriving DecidableEq, Repr

/-- The `users` table schema (app/app.py lines 48-54):
`id = Column(Integer, primary_key=True, index=True)`,
`name = Column(String(255))`,
`email = Column(String(255), unique=True, index=True)`,
`hashed_password = Column(String(255))`,
`created_at = Column(DateTime, default=datetime.utcnow)`. -/
def usersTable : List ColumnSpec :=
  [ ⟨"id", "Integer", true, false, true⟩,
    ⟨"name", "String(255)", false, false, false⟩,
    ⟨"email", "String(255)", false, true, true⟩,
    ⟨"hashed_password", "String(255)", false, false, false⟩,
    ⟨"created_at", "DateTime", false, false, false⟩ ]

/-- Function `get_user_by_email` (app/app.py lines 105-106, app/auth.py lines 30-31):
`db.query(User).filter(User.email == email).first()`. -/
def get_user_by_email (db : Db) (email : String) : Option User :=
  db.find? (fun u => u.email == email)

/-- Lookup `db.query(User).filter(User.id == int(user_id)).first()`
(app/auth.py line 77). -/
def get_user_by_id (db : Db) (id : Int) : Option User :=
  db.find? (fun u => (u.id : Int) == id)

/-- Function `create_access_token` (app/app.py lines 100-103): payload
`{"sub": sub, "exp": utcnow + timedelta(minutes=ACCESS_TOKEN_EXPIRE_MINUTES)}`
signed with `SECRET_KEY` (the `key` parameter) and `ALGORITHM`.  Note: no
`iat` claim and no `name` claim. -/
def create_access_token (key : String) (sub : String) (now : Time) : TokenStr :=
  jwt_encode
    { sub := some sub, name := none, iat := none,
      exp := some (now + ACCESS_TOKEN_EXPIRE_MINUTES * 60) }
    key ALGORITHM

/-- Function `create_jwt_token` (app/auth.py lines 34-42): payload
`{"sub": str(user.id), "name": user.name, "iat": utcnow, "exp": utcnow + TTL}`
signed with `SECRET_KEY` and `ALGORITHM`. -/
def create_jwt_token (key : String) (user : User) (now : Time) : TokenStr :=
  jwt_encode
    { sub := some (toString user.id), name := some user.name, iat := some now,
      exp := some (now + ACCESS_TOKEN_EXPIRE_MINUTES * 60) }
    key ALGORITHM

/-- Function `decode_jwt` (app/auth.py lines 45-49): `jwt.decode` with the pinned
algorithm list, returning `None` on any `JWTError`. -/
def decode_jwt (key : String) (token : TokenStr) (now : Time) : Option JwtPayload :=
  jwt_decode token key [ALGORITHM] now

/-- Function `authenticate_user` (app/app.py lines 108-112): look up by email; `None`
when absent or when the password does not verify, short-circuiting so that
`verify_password` is not called when the user is absent. -/
def authenticate_user (bc : Nat → String → String → String) (db : Db)
    (email senha : String) : Except ApiError (Option User) :=
  match get_user_by_email db email with
  | none => .ok none
  | some user =>
    match verify_password bc senha user.hashed_password with
    | .error e => .error e
    | .ok true => .ok (some user)
    | .ok false => .ok none

/-- Endpoint `POST /login`, handler `login` (app/app.py lines 173-183): a single 401
`"Credenciais inválidas"` for both the absent-user and wrong-password cases. -/
def login (bc : Nat → String → String → String) (key : String) (db : Db)
    (email senha : String) (now : Time) : Except ApiError TokenStr :=
  match authenticate_user bc db email senha with
  | .error e => .error e
  | .ok none => .error (.http 401 "Credenciais inválidas")
  | .ok (some user) => .ok (create_access_token key user.email now)

/-- Endpoint `POST /login`, handler `login_user` (app/main.py lines 69-90): the same 401
`"Invalid credentials"` raised in the absent-user branch and in the
wrong-password branch.  Its token payload is `{"sub": email, "name": nome}`
passed to `create_access_token` imported from `app.auth`; that function is
absent from the source, so the success branch signs those claims with an
`exp` per the configured TTL. -/
def login_user (bc : Nat → String → String → String) (key : String) (db : Db)
    (email senha : String) (now : Time) : Except ApiError TokenStr :=
  match get_user_by_email db email with
  | none => .error (.http 401 "Invalid credentials")
  | some db_user =>
    match verify_password bc senha db_user.hashed_password with
    | .error e => .error e
    | .ok false => .error (.http 401 "Invalid credentials")
    | .ok true =>
      .ok (jwt_encode
        { sub := some db_user.email, name := some db_user.name, iat := none,
          exp := some (now + ACCESS_TOKEN_EXPIRE_MINUTES * 60) }
        key ALGORITHM)

/-- Request body of `POST /registrar` (app/app.py lines 69-72 and
app/schemas.py lines 3-6): `name`, `email : EmailStr`, `senha : str`. -/
structure UserCreate where
  name : String
  email : String
  senha : String
deriving DecidableEq, Repr

/-- pydantic `EmailStr` validation (external library contract): the request is
rejected with a 422 validation error unless the `email` field is
email-shaped — one `@` separating a non-empty local part from a non-empty
domain that contains a dot and has no empty labels. -/
def is_email_str (s : String) : Bool :=
  match splitOnChar '@' s.data with
  | [localPart, domain] =>
    !localPart.isEmpty && !domain.isEmpty && domain.contains '.' &&
      (splitOnChar '.' domain).all (fun lbl => !lbl.isEmpty)
  | _ => false

/-- Endpoint `POST /registrar`, handler `registrar` (app/app.py lines 155-171): 409 when
the email is already present, otherwise insert the new row (id assigned by
the store, `created_at` defaulted to `utcnow`) and return a token for
`novo.email`.  Returns the token together with the updated store. -/
def registrar (bc : Nat → String → String → String) (key : String) (db : Db)
    (req : UserCreate) (salt : String) (now : Time) :
    Except ApiError (TokenStr × Db) :=
  match get_user_by_email db req.email with
  | some _ => .error (.http 409 "Email já registrado")
  | none =>
    let novo : User :=
      { id := db.length + 1, name := req.name, email := req.email,
        hashed_password := hash_password bc salt req.senha, created_at := now }
    .ok (create_access_token key novo.email now, db ++ [novo])

/-- The full `POST /registrar` request path: pydantic validates the body
(`email : EmailStr`; no constraint at all on `senha`) before the `registrar`
handler runs. -/
def handle_registrar (bc : Nat → String → String → String) (key : String)
    (db : Db) (req : UserCreate) (salt : String) (now : Time) :
    Except ApiError (TokenStr × Db) :=
  if is_email_str req.email then registrar bc key db req salt now
  else .error (.http 422 "value is not a valid email address")

/-- The `Authorization` header as FastAPI's `HTTPBearer` sees it after
splitting on the first space: the scheme word and the credential part. -/
structure AuthHeader where
  scheme : String
  credentials : TokenStr
deriving DecidableEq, Repr

/-- FastAPI `HTTPBearer()` with `auto_error = True` (external library
contract, app/app.py line 66 and app/auth.py line 19): a missing
`Authorization` header raises 403 `"Not authenticated"`; a scheme other than
`bearer` (case-insensitive) raises 403 `"Invalid authentication
credentials"`; otherwise the credential part is handed to the dependency. -/
def http_bearer (h : Option AuthHeader) : Except ApiError TokenStr :=
  match h with
  | none => .error (.http 403 "Not authenticated")
  | some a =>
    if lowerStr a.scheme == "bearer" then .ok a.credentials
    else .error (.http 403 "Invalid authentication credentials")

/-- Dependency `get_current_user` (app/app.py lines 115-138): decode with `SECRET_KEY` /
`[ALGORITHM]`, treat a missing `sub` as a `JWTError`, both yielding 403
`"Token inválido ou expirado"`; then look the subject up by email, a missing
user yielding 403 `"Usuário não encontrado"`. -/
def get_current_user_app (key : String) (db : Db) (h : Option AuthHeader)
    (now : Time) : Except ApiError User :=
  match http_bearer h with
  | .error e => .error e
  | .ok token =>
    match jwt_decode token key [ALGORITHM] now with
    | none => .error (.http 403 "Token inválido ou expirado")
    | some payload =>
      match payload.sub with
      | none => .error (.http 403 "Token inválido ou expirado")
      | some email =>
        match get_user_by_email db email with
        | none => .error (.http 403 "Usuário não encontrado")
        | some user => .ok user

/-- Dependency `get_current_user` (app/auth.py lines 52-84): `decode_jwt` failure yields
403 `"Token inválido ou expirado"`; a missing `sub` yields 403
`"Token mal formado"`; then `int(user_id)` — which raises an uncaught
`ValueError` when the subject is not an integer literal — and a lookup by id
whose failure yields 404 `"Usuário não encontrado"`. -/
def get_current_user_auth (key : String) (db : Db) (h : Option AuthHeader)
    (now : Time) : Except ApiError User :=
  match http_bearer h with
  | .error e => .error e
  | .ok token =>
    match decode_jwt key token now with
    | none => .error (.http 403 "Token inválido ou expirado")
    | some payload =>
      match payload.sub with
      | none => .error (.http 403 "Token mal formado")
      | some user_id =>
        match py_int user_id with
        | none => .error .uncaught
        | some n =>
          match get_user_by_id db n with
          | none => .error (.http 404 "Usuário não encontrado")
          | some user => .ok user

/-- Dependency `get_current_user` (app/main.py lines 93-111): decode with the configured
secret and pinned algorithm, both a `JWTError` and a missing `sub` yielding
403 `"Could not validate credentials"`; on success the raw payload is
returned — the subject is not parsed or resolved against the store. -/
def get_current_user_main (key : String) (h : Option AuthHeader) (now : Time) :
    Except ApiError JwtPayload :=
  match http_bearer h with
  | .error e => .error e
  | .ok token =>
    match jwt_decode token key [ALGORITHM] now with
    | none => .error (.http 403 "Could not validate credentials")
    | some payload =>
      match payload.sub with
      | none => .error (.http 403 "Could not validate credentials")
      | some _ => .ok payload

/-- Email uniqueness invariant of the store: no two rows share an email. -/
def emails_unique (db : Db) : Prop :=
  (db.map (fun u => u.email)).Nodup

instance (db : Db) : Decidable (emails_unique db) := by
  unfold emails_unique
  infer_instance

/-- A concrete executable digest function standing in for the bcrypt
primitive in witnesses and counterexamples. -/
def bcTest : Nat → String → String → String :=
  fun _cost salt password => salt ++ "#" ++ password

/-- Claim C2, counterexample: `registrar` on an empty store with the request
`{name: "A", email: "a@x.com", senha: "pw"}` creates the user with id 1 but
issues a token whose `sub` claim is the email `"a@x.com"`, not the id `"1"`,
and whose `iat` claim is absent — refuting that every issued token carries
`subject = user id` and `issuedAt = now`. -/
theorem C2_counterexample :
    registrar bcTest "k" [] ⟨"A", "a@x.com", "pw"⟩ "s" 0 =
      .ok (.signed ⟨some "a@x.com", none, none, some 1800⟩ "k" "HS256",
        [⟨1, "A", "a@x.com", .valid 12 "s" "s#pw", 0⟩])
    ∧ some "a@x.com" ≠ some (toString 1)
    ∧ (none : Option Time) ≠ some 0 := by
  refine ⟨by decide, by decide, by decide⟩

/-- Claim C2 (amended): `create_jwt_token` (app/auth.py) embeds
`sub = str(user.id)`, `iat = now` and `exp = now + TTL` (default 30 minutes);
`create_access_token` (app/app.py) embeds `sub` = the string given by its
caller, `exp = now + TTL`, and no `iat` claim; and `registrar` calls it with
the new user's email, so its issued tokens carry the email, not the id, as
subject. -/
theorem C2_token_claims (bc : Nat → String → String → String)
    (key sub : String) (user : User) (db : Db) (req : UserCreate)
    (salt : String) (now : Time) :
    create_jwt_token key user now =
      .signed
        { sub := some (toString user.id), name := some user.name,
          iat := some now, exp := some (now + 30 * 60) }
        key "HS256"
    ∧ create_access_token key sub now =
      .signed
        { sub := some sub, name := none, iat := none,
          exp := some (now + 30 * 60) }
        key "HS256"
    ∧ ((∃ e, registrar bc key db req salt now = .error e) ∨
        registrar bc key db req salt now =
          .ok (create_access_token key req.email now,
            db ++ [{ id := db.length + 1, name := req.name, email := req.email,
                     hashed_password := hash_password bc salt req.senha,
                     created_at := now }])) := by
  refine ⟨rfl, rfl, ?_⟩
  unfold registrar
  cases hfind : get_user_by_email db req.email with
  | some u => exact Or.inl ⟨_, rfl⟩
  | none => exact Or.inr rfl

/-- Claim C5: a token issued by `create_access_token` (and likewise by
`create_jwt_token`) at time `t` with the default 30-minute TTL decodes
successfully — returning its payload, whose subject is the issued subject —
at `t + 29` minutes, and fails to decode (returns `none`, the modelled
`JWTError`) at `t + 31` minutes. -/
theorem C5_ttl_window (key sub : String) (user : User) (t : Nat) :
    decode_jwt key (create_access_token key sub t) (t + 29 * 60) =
      some { sub := some sub, name := none, iat := none, exp := some (t + 30 * 60) }
    ∧ decode_jwt key (create_access_token key sub t) (t + 31 * 60) = none
    ∧ decode_jwt key (create_jwt_token key user t) (t + 29 * 60) =
      some { sub := some (toString user.id), name := some user.name,
             iat := some t, exp := some (t + 30 * 60) }
    ∧ decode_jwt key (create_jwt_token key user t) (t + 31 * 60) = none := by
  have hkey : (key == key && [ALGORITHM].contains ALGORITHM) = true := by simp
  have h29 : ¬ (t + 30 * 60 < t + 29 * 60) := by omega
  have h31 : t + 30 * 60 < t + 31 * 60 := by omega
  refine ⟨?_, ?_, ?_, ?_⟩ <;>
    simp only [decode_jwt, jwt_decode, create_access_token, create_jwt_token,
      jwt_encode, ACCESS_TOKEN_EXPIRE_MINUTES, hkey, if_true] <;>
    simp [h29, h31]

/-- Claim C6, counterexample: `verify_password` on a malformed stored hash
raises (bcrypt's `ValueError`, modelled as the `uncaught` error) instead of
returning `false` — refuting that it never raises on any stored-hash input. -/
theorem C6_counterexample :
    verify_password bcTest "pw" (.malformed "nothash") = .error .uncaught := by
  decide

/-- Claim C6 (amended): on a well-formed stored bcrypt hash,
`verify_password` returns the boolean digest comparison — `false` on any
mismatch, never an exception — but on a malformed stored hash it raises
bcrypt's `ValueError` rather than returning `false`. -/
theorem C6_verify_behavior (bc : Nat → String → String → String)
    (password : String) (cost : Nat) (salt digest raw : String) :
    verify_password bc password (.valid cost salt digest) =
      .ok (bc cost salt password == digest)
    ∧ verify_password bc password (.malformed raw) = .error .uncaught :=
  ⟨rfl, rfl⟩

/-- Claim C8: verifying a password against its own fresh hash succeeds, and
verifying a different password fails whenever the bcrypt digests of the two
passwords differ (the digest-collision event whose probability the claim
calls negligible). -/
theorem C8_hash_verify_roundtrip (bc : Nat → String → String → String)
    (salt p : String) :
    verify_password bc p (hash_password bc salt p) = .ok true
    ∧ ∀ p1 p2 : String,
        bc BCRYPT_DEFAULT_COST salt p1 ≠ bc BCRYPT_DEFAULT_COST salt p2 →
        verify_password bc p1 (hash_password bc salt p2) = .ok false := by
  constructor
  · simp [verify_password, hash_password]
  · intro p1 p2 hne
    simp [verify_password, hash_password, hne]

/-- Claim C8, witness at the concrete digest function `bcTest`, passwords
`"a"` and `"b"`, salt `"s"`. -/
theorem C8_hash_verify_roundtrip_witness :
    verify_password bcTest "a" (hash_password bcTest "s" "a") = .ok true
    ∧ verify_password bcTest "a" (hash_password bcTest "s" "b") = .ok false :=
  ⟨(C8_hash_verify_roundtrip bcTest "s" "a").1,
    (C8_hash_verify_roundtrip bcTest "s" "b").2 "a" "b" (by decide)⟩

/-- Claim C9: two calls of `hash_password` with distinct fresh salts (the
salts drawn by `bcrypt.gensalt()` on each call) produce distinct stored
hashes, for any two — in particular identical — passwords. -/
theorem C9_salt_freshness (bc : Nat → String → String → String)
    (s1 s2 p1 p2 : String) (hs : s1 ≠ s2) :
    hash_password bc s1 p1 ≠ hash_password bc s2 p2 := by
  intro h
  exact hs (by injection h)

/-- Claim C9, witness: the same password `"pw"` hashed under two distinct
salts yields two distinct stored hashes. -/
theorem C9_salt_freshness_witness :
    hash_password bcTest "s1" "pw" ≠ hash_password bcTest "s2" "pw" :=
  C9_salt_freshness bcTest "s1" "s2" "pw" "pw" (by decide)

/-- Every outcome of app/app.py's `get_current_user` is a user or a 403. -/
theorem app_current_user_status (key : String) (db : Db) (h : Option AuthHeader)
    (now : Nat) :
    (∃ u, get_current_user_app key db h now = .ok u) ∨
      ∃ d, get_current_user_app key db h now = .error (.http 403 d) := by
  cases h with
  | none => exact Or.inr ⟨"Not authenticated", rfl⟩
  | some a =>
    cases hb : lowerStr a.scheme == "bearer" with
    | false =>
      exact Or.inr ⟨"Invalid authentication credentials",
        by simp [get_current_user_app, http_bearer, hb]⟩
    | true =>
      have ht : http_bearer (some a) = .ok a.credentials := by
        simp [http_bearer, hb]
      cases hdec : jwt_decode a.credentials key [ALGORITHM] now with
      | none =>
        exact Or.inr ⟨"Token inválido ou expirado",
          by simp [get_current_user_app, ht, hdec]⟩
      | some payload =>
        cases hsub : payload.sub with
        | none =>
          exact Or.inr ⟨"Token inválido ou expirado",
            by simp [get_current_user_app, ht, hdec, hsub]⟩
        | some email =>
          cases hfind : get_user_by_email db email with
          | none =>
            exact Or.inr ⟨"Usuário não encontrado",
              by simp [get_current_user_app, ht, hdec, hsub, hfind]⟩
          | some u =>
            exact Or.inl ⟨u, by simp [get_current_user_app, ht, hdec, hsub, hfind]⟩

/-- Every outcome of app/auth.py's `get_current_user` is a user, a 403, the
404 for an unresolved subject, or the uncaught `ValueError` from `int`. -/
theorem auth_current_user_status (key : String) (db : Db) (h : Option AuthHeader)
    (now : Nat) :
    (∃ u, get_current_user_auth key db h now = .ok u) ∨
      (∃ d, get_current_user_auth key db h now = .error (.http 403 d)) ∨
      get_current_user_auth key db h now =
        .error (.http 404 "Usuário não encontrado") ∨
      get_current_user_auth key db h now = .error .uncaught := by
  cases h with
  | none => exact Or.inr (Or.inl ⟨"Not authenticated", rfl⟩)
  | some a =>
    cases hb : lowerStr a.scheme == "bearer" with
    | false =>
      exact Or.inr (Or.inl ⟨"Invalid authentication credentials",
        by simp [get_current_user_auth, http_bearer, hb]⟩)
    | true =>
      have ht : http_bearer (some a) = .ok a.credentials := by
        simp [http_bearer, hb]
      cases hdec : decode_jwt key a.credentials now with
      | none =>
        exact Or.inr (Or.inl ⟨"Token inválido ou expirado",
          by simp [get_current_user_auth, ht, hdec]⟩)
      | some payload =>
        cases hsub : payload.sub with
        | none =>
          exact Or.inr (Or.inl ⟨"Token mal formado",
            by simp [get_current_user_auth, ht, hdec, hsub]⟩)
        | some user_id =>
          cases hint : py_int user_id with
          | none =>
            exact Or.inr (Or.inr (Or.inr
              (by simp [get_current_user_auth, ht, hdec, hsub, hint])))
          | some n =>
            cases hfind : get_user_by_id db n with
            | none =>
              exact Or.inr (Or.inr (Or.inl
                (by simp [get_current_user_auth, ht, hdec, hsub, hint, hfind])))
            | some u =>
              exact Or.inl ⟨u,
                by simp [get_current_user_auth, ht, hdec, hsub, hint, hfind]⟩

/-- Claim C1, counterexample: a well-signed, unexpired token whose subject
`"1"` does not resolve to any stored user makes app/auth.py's
`get_current_user` answer HTTP 404, not the claimed uniform 403. -/
theorem C1_counterexample :
    get_current_user_auth "k" []
      (some ⟨"Bearer", .signed ⟨some "1", none, none, some 100⟩ "k" "HS256"⟩) 0 =
      .error (.http 404 "Usuário não encontrado")
    ∧ (404 : Nat) ≠ 403 := by
  refine ⟨by decide, by decide⟩

/-- Claim C1 (amended): every failure of app/app.py's `get_current_user`
yields HTTP 403; app/auth.py's `get_current_user` yields 403 on a missing
header, a non-bearer scheme, an invalid or expired token and a missing
subject, but answers 404 when a valid subject resolves to no stored user and
raises an uncaught `ValueError` on a non-numeric subject. -/
theorem C1_failure_statuses (key : String) (db : Db) (h : Option AuthHeader)
    (now : Nat) :
    ((∃ u, get_current_user_app key db h now = .ok u) ∨
      ∃ d, get_current_user_app key db h now = .error (.http 403 d))
    ∧ ((∃ u, get_current_user_auth key db h now = .ok u) ∨
      (∃ d, get_current_user_auth key db h now = .error (.http 403 d)) ∨
      get_current_user_auth key db h now =
        .error (.http 404 "Usuário não encontrado") ∨
      get_current_user_auth key db h now = .error .uncaught) :=
  ⟨app_current_user_status key db h now, auth_current_user_status key db h now⟩

/-- Claim C3: once a registration for an email has succeeded, a second
registration for the same email fails with the 409 duplicate error and the
store holds exactly one row with that email; the insertion preserves email
uniqueness, and the schema declares the storage-level unique constraint on
the `email` column. -/
theorem C3_register_twice_unique (bc : Nat → String → String → String)
    (key : String) (db db' : Db) (req req' : UserCreate)
    (salt salt' : String) (now now' : Nat) (tok : TokenStr)
    (hok : registrar bc key db req salt now = .ok (tok, db'))
    (he : req'.email = req.email) :
    registrar bc key db' req' salt' now' = .error (.http 409 "Email já registrado")
    ∧ db'.countP (fun u => u.email == req.email) = 1
    ∧ (emails_unique db → emails_unique db')
    ∧ (usersTable.find? (fun c => c.colName == "email")).map
        (fun c => c.unique) = some true := by
  unfold registrar at hok
  cases hfind : get_user_by_email db req.email with
  | some u => simp [hfind] at hok
  | none =>
    simp only [hfind] at hok
    injection hok with hp
    injection hp with htok hdb
    have hnone : db.find? (fun u => u.email == req.email) = none := hfind
    have hmem : ∀ u ∈ db, ¬ (u.email == req.email) = true :=
      List.find?_eq_none.mp hnone
    subst hdb
    refine ⟨?_, ?_, ?_, by decide⟩
    · unfold registrar
      have hf2 : get_user_by_email
          (db ++ [{ id := db.length + 1, name := req.name, email := req.email,
                    hashed_password := hash_password bc salt req.senha,
                    created_at := now }]) req'.email =
          some { id := db.length + 1, name := req.name, email := req.email,
                 hashed_password := hash_password bc salt req.senha,
                 created_at := now } := by
        unfold get_user_by_email
        rw [he, List.find?_append, hnone]
        simp
      simp [hf2]
    · rw [List.countP_append]
      have h0 : db.countP (fun u => u.email == req.email) = 0 :=
        List.countP_eq_zero.mpr hmem
      simp [h0]
    · intro hu
      unfold emails_unique at hu ⊢
      rw [List.map_append, List.nodup_append]
      refine ⟨hu, by simp, ?_⟩
      intro a ha hb
      simp only [List.map_cons, List.map_nil, List.mem_singleton] at hb
      obtain ⟨u, humem, hue⟩ := List.mem_map.mp ha
      exact hmem u humem (by simp [hue, hb])

/-- Claim C3, witness: registering `a@x.com` into the empty store succeeds
and produces the one-row store against which the theorem's conclusions are
evaluated. -/
theorem C3_register_twice_unique_witness :
    registrar bcTest "k" [⟨1, "A", "a@x.com", .valid 12 "s" "s#pw", 0⟩]
      ⟨"B", "a@x.com", "pw2"⟩ "t" 5 = .error (.http 409 "Email já registrado")
    ∧ ([⟨1, "A", "a@x.com", .valid 12 "s" "s#pw", 0⟩] : Db).countP
        (fun u => u.email == "a@x.com") = 1
    ∧ (emails_unique ([] : Db) →
        emails_unique [⟨1, "A", "a@x.com", .valid 12 "s" "s#pw", 0⟩])
    ∧ (usersTable.find? (fun c => c.colName == "email")).map
        (fun c => c.unique) = some true :=
  C3_register_twice_unique bcTest "k" [] [⟨1, "A", "a@x.com", .valid 12 "s" "s#pw", 0⟩]
    ⟨"A", "a@x.com", "pw"⟩ ⟨"B", "a@x.com", "pw2"⟩ "s" "t" 0 5
    (.signed ⟨some "a@x.com", none, none, some 1800⟩ "k" "HS256")
    (by decide) rfl

/-- Claim C4: login with an email that has no stored user and login with a
stored email but a non-verifying password return the identical error — 401
`"Credenciais inválidas"` in app/app.py's `login` and 401
`"Invalid credentials"` in app/main.py's `login_user` — so the caller cannot
tell the two cases apart. -/
theorem C4_login_uniform (bc : Nat → String → String → String) (key : String)
    (db : Db) (email senha : String) (now : Nat) :
    (get_user_by_email db email = none →
      login bc key db email senha now = .error (.http 401 "Credenciais inválidas")
      ∧ login_user bc key db email senha now =
          .error (.http 401 "Invalid credentials"))
    ∧ (∀ u, get_user_by_email db email = some u →
        verify_password bc senha u.hashed_password = .ok false →
        login bc key db email senha now = .error (.http 401 "Credenciais inválidas")
        ∧ login_user bc key db email senha now =
            .error (.http 401 "Invalid credentials")) := by
  constructor
  · intro hn
    constructor <;> simp [login, authenticate_user, login_user, hn]
  · intro u hu hv
    constructor <;> simp [login, authenticate_user, login_user, hu, hv]

/-- Claim C4, witness: in a store holding only `a@x.com`, logging in as the
absent `b@x.com` and logging in as `a@x.com` with the wrong password produce
the identical 401 in both login handlers. -/
theorem C4_login_uniform_witness :
    (login bcTest "k" [⟨1, "A", "a@x.com", .valid 12 "s" "s#pw", 0⟩]
        "b@x.com" "pw" 0 = .error (.http 401 "Credenciais inválidas")
      ∧ login_user bcTest "k" [⟨1, "A", "a@x.com", .valid 12 "s" "s#pw", 0⟩]
        "b@x.com" "pw" 0 = .error (.http 401 "Invalid credentials"))
    ∧ (login bcTest "k" [⟨1, "A", "a@x.com", .valid 12 "s" "s#pw", 0⟩]
        "a@x.com" "wrong" 0 = .error (.http 401 "Credenciais inválidas")
      ∧ login_user bcTest "k" [⟨1, "A", "a@x.com", .valid 12 "s" "s#pw", 0⟩]
        "a@x.com" "wrong" 0 = .error (.http 401 "Invalid credentials")) :=
  ⟨(C4_login_uniform bcTest "k" [⟨1, "A", "a@x.com", .valid 12 "s" "s#pw", 0⟩]
      "b@x.com" "pw" 0).1 (by decide),
    (C4_login_uniform bcTest "k" [⟨1, "A", "a@x.com", .valid 12 "s" "s#pw", 0⟩]
      "a@x.com" "wrong" 0).2 ⟨1, "A", "a@x.com", .valid 12 "s" "s#pw", 0⟩
      (by decide) (by decide)⟩

/-- Claim C7, failing input: a token correctly signed with the secret whose
subject claim is the non-numeric string `"abc"`.  app/auth.py's
`get_current_user` raises an uncaught `ValueError` from `int("abc")` instead
of the uniform 403, and app/main.py's version accepts the token outright
without parsing the subject — neither performs the claimed uniform
rejection. -/
theorem C7_nonnumeric_subject :
    get_current_user_auth "k" []
      (some ⟨"Bearer", .signed ⟨some "abc", none, none, some 100⟩ "k" "HS256"⟩) 0 =
      .error .uncaught
    ∧ get_current_user_main "k"
      (some ⟨"Bearer", .signed ⟨some "abc", none, none, some 100⟩ "k" "HS256"⟩) 0 =
      .ok ⟨some "abc", none, none, some 100⟩ := by
  refine ⟨by decide, by decide⟩

/-- Claim C10, counterexample: a registration request with a well-shaped
email and an empty password passes validation, is hashed and stored, and a
token is returned — refuting that an empty password is rejected before
anything is stored. -/
theorem C10_counterexample :
    handle_registrar bcTest "k" [] ⟨"A", "a@x.com", ""⟩ "s" 0 =
      .ok (.signed ⟨some "a@x.com", none, none, some 1800⟩ "k" "HS256",
        [⟨1, "A", "a@x.com", .valid 12 "s" "s#", 0⟩]) := by
  decide

/-- Claim C10 (amended): registration validates the email shape — a
non-email-shaped value is rejected with the 422 validation error before the
handler runs — but performs no password non-emptiness check: a request with
an empty password is hashed, stored as a new row, and answered with a
token. -/
theorem C10_register_validation (bc : Nat → String → String → String)
    (key : String) (db : Db) (name email senha salt : String) (now : Nat) :
    (is_email_str email = false →
      handle_registrar bc key db ⟨name, email, senha⟩ salt now =
        .error (.http 422 "value is not a valid email address"))
    ∧ (is_email_str email = true → get_user_by_email db email = none →
        handle_registrar bc key db ⟨name, email, ""⟩ salt now =
          .ok (create_access_token key email now,
            db ++ [⟨db.length + 1, name, email, hash_password bc salt "", now⟩])) := by
  constructor
  · intro hm
    simp [handle_registrar, hm]
  · intro hv hn
    simp [handle_registrar, registrar, hv, hn]

/-- Claim C10, witness: `"nomail"` is rejected with 422, while a well-shaped
email with an empty password is stored and answered with a token. -/
theorem C10_register_validation_witness :
    handle_registrar bcTest "k" [] ⟨"A", "nomail", ""⟩ "s" 0 =
      .error (.http 422 "value is not a valid email address")
    ∧ handle_registrar bcTest "k" [] ⟨"A", "b@x.com", ""⟩ "s" 0 =
      .ok (.signed ⟨some "b@x.com", none, none, some 1800⟩ "k" "HS256",
        [⟨1, "A", "b@x.com", .valid 12 "s" "s#", 0⟩]) :=
  ⟨(C10_register_validation bcTest "k" [] "A" "nomail" "" "s" 0).1 (by decide),
    (C10_register_validation bcTest "k" [] "A" "b@x.com" "" "s" 0).2
      (by decide) (by decide)⟩

end Cloud
